import Mathlib

/-!
Verification of the GST utility module (`src/lib/gst-utils.ts`).

Shallow embedding of the pure functions in `gst-utils.ts`:
`calculateGST`, `validateGSTIN`, `getStateCodeFromGSTIN`, `formatGSTIN`.

Amounts (paise) are embedded as `ℤ` and rates as `ℚ`; `Math.round` is
embedded as round-half-up towards `+∞` (`⌊x + 1/2⌋`), which is its
behaviour on real values. Strings are Lean `String`s (lists of
characters); the GSTIN regex is embedded as an explicit positional
character-class check.
-/

namespace GstUtils

/-- Embedding of JavaScript `Math.round`: round half up (towards `+∞`). -/
def mathRound (x : ℚ) : ℤ := ⌊x + 1 / 2⌋

/-- Structure `GSTCalculationInput` from `gst-utils.ts`. -/
structure GSTCalculationInput where
  amountCents : ℤ
  gstRate : ℚ
  merchantState : String
  customerState : String
  isTaxInclusive : Bool
deriving DecidableEq

/-- The `taxType` discriminator: `'CGST_SGST' | 'IGST'`. -/
inductive TaxType where
  | CGST_SGST
  | IGST
deriving DecidableEq

/-- Structure `GSTCalculationResult` from `gst-utils.ts`. -/
structure GSTCalculationResult where
  baseAmountCents : ℤ
  cgstAmountCents : ℤ
  sgstAmountCents : ℤ
  igstAmountCents : ℤ
  totalGstCents : ℤ
  totalAmountCents : ℤ
  taxType : TaxType
  cgstRate : ℚ
  sgstRate : ℚ
  igstRate : ℚ
deriving DecidableEq

/-- Embedding of `calculateGST` (`gst-utils.ts` lines 101–158).

The JavaScript assignments are rendered as `let`-bindings computing the
same values: the inclusive branch sets `totalAmount = amount`,
`base = Math.round(amount / (1 + rate/100))`, `gst = total - base`;
the exclusive branch sets `base = amount`,
`gst = Math.round(base * (rate/100))`, `total = base + gst`.
The intrastate split sets `cgst = Math.round(gst / 2)` and
`sgst = gst - cgst`; interstate puts everything into `igst`. -/
def calculateGST (input : GSTCalculationInput) : GSTCalculationResult :=
  let a := input.amountCents
  let r := input.gstRate
  let isIntrastate := input.merchantState = input.customerState
  let baseAmountCents : ℤ :=
    if input.isTaxInclusive then mathRound ((a : ℚ) / (1 + r / 100)) else a
  let totalGstCents : ℤ :=
    if input.isTaxInclusive then a - baseAmountCents
    else mathRound ((a : ℚ) * (r / 100))
  let totalAmountCents : ℤ :=
    if input.isTaxInclusive then a else a + totalGstCents
  let cgstAmountCents : ℤ :=
    if isIntrastate then mathRound ((totalGstCents : ℚ) / 2) else 0
  let sgstAmountCents : ℤ :=
    if isIntrastate then totalGstCents - cgstAmountCents else 0
  let igstAmountCents : ℤ :=
    if isIntrastate then 0 else totalGstCents
  { baseAmountCents := baseAmountCents
    cgstAmountCents := cgstAmountCents
    sgstAmountCents := sgstAmountCents
    igstAmountCents := igstAmountCents
    totalGstCents := totalGstCents
    totalAmountCents := totalAmountCents
    taxType := if isIntrastate then TaxType.CGST_SGST else TaxType.IGST
    cgstRate := if isIntrastate then r / 2 else 0
    sgstRate := if isIntrastate then r / 2 else 0
    igstRate := if isIntrastate then 0 else r }

/-- Regex character class `[0-9]`. -/
def isDigitChar (c : Char) : Bool := '0' ≤ c && c ≤ '9'

/-- Regex character class `[A-Z]`. -/
def isUpperChar (c : Char) : Bool := 'A' ≤ c && c ≤ 'Z'

/-- Regex character class `[1-9A-Z]` (13th GSTIN character, the entity
number: digit 1–9 or upper-case letter, `'0'` excluded). -/
def isEntityChar (c : Char) : Bool := ('1' ≤ c && c ≤ '9') || isUpperChar c

/-- Regex character class `[0-9A-Z]` (digit or upper-case letter). -/
def isAlnumChar (c : Char) : Bool := isDigitChar c || isUpperChar c

/-- The anchored GSTIN regex
`^[0-9]{2}[A-Z]{5}[0-9]{4}[A-Z]{1}[1-9A-Z]{1}Z[0-9A-Z]{1}$` of
`gst-utils.ts` line 176, as a positional character-class check on the
character list of the string. -/
def gstinChars : List Char → Bool
  | [s1, s2, p1, p2, p3, p4, p5, n1, n2, n3, n4, p6, e, z, cd] =>
      isDigitChar s1 && isDigitChar s2 &&
      isUpperChar p1 && isUpperChar p2 && isUpperChar p3 &&
      isUpperChar p4 && isUpperChar p5 &&
      isDigitChar n1 && isDigitChar n2 && isDigitChar n3 && isDigitChar n4 &&
      isUpperChar p6 && isEntityChar e && z == 'Z' && isAlnumChar cd
  | _ => false

/-- Embedding of `validateGSTIN` (`gst-utils.ts` lines 170–178): reject
empty / wrong-length strings, then test the anchored regex. -/
def validateGSTIN (gstin : String) : Bool :=
  if gstin.length ≠ 15 then false
  else gstinChars gstin.data

/-- The pattern the spec sentence describes, word for word:
`[2 digits][5 letters][4 digits][1 letter][1 alnum]Z[1 alnum]` on a
15-character string — i.e. with a full alphanumeric class `[0-9A-Z]` in
the 13th position. Modelled from the spec for comparison with the
implemented regex. -/
def specClaimedPattern : List Char → Bool
  | [s1, s2, p1, p2, p3, p4, p5, n1, n2, n3, n4, p6, e, z, cd] =>
      isDigitChar s1 && isDigitChar s2 &&
      isUpperChar p1 && isUpperChar p2 && isUpperChar p3 &&
      isUpperChar p4 && isUpperChar p5 &&
      isDigitChar n1 && isDigitChar n2 && isDigitChar n3 && isDigitChar n4 &&
      isUpperChar p6 && isAlnumChar e && z == 'Z' && isAlnumChar cd
  | _ => false

/-- Embedding of `getStateCodeFromGSTIN` (`gst-utils.ts` lines 183–188):
`null` for invalid GSTINs, otherwise `substring(0, 2)`. It is a total
function on strings (the source never throws). -/
def getStateCodeFromGSTIN (gstin : String) : Option String :=
  if validateGSTIN gstin then some (gstin.take 2) else none

/-- Embedding of JavaScript `str.substring(i, j)` on the character list:
the characters at indices `i` to `j - 1`. -/
def substringJS (l : List Char) (i j : ℕ) : List Char :=
  (l.drop i).take (j - i)

/-- Embedding of `formatGSTIN` (`gst-utils.ts` lines 204–210) on the
character list: the template string concatenates `substring(0,2)`,
`substring(2,7)`, `substring(7,11)`, `substring(11,12)`,
`substring(12,13)`, `substring(13,14)`, `substring(14,15)` separated by
single spaces. -/
def formatGSTINData (l : List Char) : List Char :=
  substringJS l 0 2 ++ ' ' :: (substringJS l 2 7 ++ ' ' ::
    (substringJS l 7 11 ++ ' ' :: (substringJS l 11 12 ++ ' ' ::
      (substringJS l 12 13 ++ ' ' :: (substringJS l 13 14 ++ ' ' ::
        substringJS l 14 15)))))

/-- Embedding of `formatGSTIN` on strings: a string whose length is not
15 is returned unchanged, otherwise the separators are inserted. -/
def formatGSTIN (gstin : String) : String :=
  if gstin.length ≠ 15 then gstin
  else ⟨formatGSTINData gstin.data⟩

example :
    calculateGST ⟨100000, 18, "KA", "KA", false⟩ =
      ⟨100000, 9000, 9000, 0, 18000, 118000, TaxType.CGST_SGST, 9, 9, 0⟩ := by
  norm_num [calculateGST, mathRound]

example :
    calculateGST ⟨118000, 18, "KA", "KA", true⟩ =
      ⟨100000, 9000, 9000, 0, 18000, 118000, TaxType.CGST_SGST, 9, 9, 0⟩ := by
  norm_num [calculateGST, mathRound]

example :
    calculateGST ⟨100000, 18, "KA", "MH", false⟩ =
      ⟨100000, 0, 0, 18000, 18000, 118000, TaxType.IGST, 0, 0, 18⟩ := by
  norm_num [calculateGST, mathRound]
  decide

example : validateGSTIN "22AAAAA0000A1Z5" = true := by decide
example : validateGSTIN "22AAAAA0000A0Z5" = false := by decide
example : validateGSTIN "22aaaaa0000A1Z5" = false := by decide
example : validateGSTIN "22AAAAA0000A1Z" = false := by decide
example : formatGSTIN "22AAAAA0000A1Z5" = "22 AAAAA 0000 A 1 Z 5" := by decide
example : formatGSTIN "22AAAAA0000A1Z" = "22AAAAA0000A1Z" := by decide

/-- Doubling `Math.round(g / 2)` gives `g` (when `g` is even) or `g + 1`
(when `g` is odd): the first split component is the rounded-up half. -/
lemma two_mul_mathRound_half (g : ℤ) :
    2 * mathRound ((g : ℚ) / 2) = g ∨ 2 * mathRound ((g : ℚ) / 2) = g + 1 := by
  unfold mathRound
  have h1 : ((⌊(g : ℚ) / 2 + 1 / 2⌋ : ℤ) : ℚ) ≤ (g : ℚ) / 2 + 1 / 2 := Int.floor_le _
  have h2 : (g : ℚ) / 2 + 1 / 2 < (⌊(g : ℚ) / 2 + 1 / 2⌋ : ℤ) + 1 :=
    Int.lt_floor_add_one _
  have h3 : 2 * ⌊(g : ℚ) / 2 + 1 / 2⌋ ≤ g + 1 := by
    have hq : ((2 * ⌊(g : ℚ) / 2 + 1 / 2⌋ : ℤ) : ℚ) ≤ ((g + 1 : ℤ) : ℚ) := by
      push_cast
      linarith
    exact_mod_cast hq
  have h4 : g ≤ 2 * ⌊(g : ℚ) / 2 + 1 / 2⌋ := by
    have hq : ((g : ℤ) : ℚ) < ((2 * ⌊(g : ℚ) / 2 + 1 / 2⌋ + 1 : ℤ) : ℚ) := by
      push_cast
      linarith
    have hz : (g : ℤ) < 2 * ⌊(g : ℚ) / 2 + 1 / 2⌋ + 1 := by exact_mod_cast hq
    omega
  omega

/-- Rounding an integer gives back the integer: `⌊b + 1/2⌋ = b`. -/
lemma mathRound_intCast (b : ℤ) : mathRound ((b : ℚ)) = b := by
  unfold mathRound
  rw [add_comm, Int.floor_add_int]
  norm_num

/-- C1: for every input to `calculateGST`, the returned result satisfies
`totalAmountCents = baseAmountCents + totalGstCents` exactly, in both the
tax-inclusive and tax-exclusive branches (proved for all amounts, rates and
jurisdiction pairs, hence in particular for non-negative amounts and rates
in {0, 5, 12, 18, 28}). -/
theorem calculateGST_total_eq_base_add_gst (i : GSTCalculationInput) :
    (calculateGST i).totalAmountCents =
      (calculateGST i).baseAmountCents + (calculateGST i).totalGstCents := by
  rcases i with ⟨a, r, ms, cs, inc⟩
  by_cases h : ms = cs <;> cases inc <;> simp [calculateGST, h]

/-- C2: when merchant and customer state coincide, the CGST and SGST
components sum exactly to the total GST, the SGST component carries the
integer-division remainder (it is defined as `totalGst - cgst`, so nothing
is dropped), and the two components differ by at most 1. -/
theorem calculateGST_intrastate_split (i : GSTCalculationInput)
    (h : i.merchantState = i.customerState) :
    (calculateGST i).cgstAmountCents + (calculateGST i).sgstAmountCents
        = (calculateGST i).totalGstCents ∧
    (calculateGST i).sgstAmountCents
        = (calculateGST i).totalGstCents - (calculateGST i).cgstAmountCents ∧
    |(calculateGST i).cgstAmountCents - (calculateGST i).sgstAmountCents| ≤ 1 := by
  rcases i with ⟨a, r, ms, cs, inc⟩
  have h' : ms = cs := h
  subst h'
  have hc : (calculateGST ⟨a, r, ms, ms, inc⟩).cgstAmountCents
      = mathRound (((calculateGST ⟨a, r, ms, ms, inc⟩).totalGstCents : ℚ) / 2) := by
    simp [calculateGST]
  have hs : (calculateGST ⟨a, r, ms, ms, inc⟩).sgstAmountCents
      = (calculateGST ⟨a, r, ms, ms, inc⟩).totalGstCents
          - (calculateGST ⟨a, r, ms, ms, inc⟩).cgstAmountCents := by
    simp [calculateGST]
  rw [hc, hs, hc]
  refine ⟨by ring, rfl, ?_⟩
  rcases two_mul_mathRound_half (calculateGST ⟨a, r, ms, ms, inc⟩).totalGstCents
    with hg | hg <;> rw [abs_le] <;> omega

/-- Witness for C2 at a concrete intrastate input with an odd total GST:
amount 50, rate 18% gives total GST 9, split 5 + 4. -/
theorem calculateGST_intrastate_split_witness :
    (calculateGST ⟨50, 18, "MH", "MH", false⟩).cgstAmountCents
        + (calculateGST ⟨50, 18, "MH", "MH", false⟩).sgstAmountCents
        = (calculateGST ⟨50, 18, "MH", "MH", false⟩).totalGstCents ∧
    (calculateGST ⟨50, 18, "MH", "MH", false⟩).sgstAmountCents
        = (calculateGST ⟨50, 18, "MH", "MH", false⟩).totalGstCents
            - (calculateGST ⟨50, 18, "MH", "MH", false⟩).cgstAmountCents ∧
    |(calculateGST ⟨50, 18, "MH", "MH", false⟩).cgstAmountCents
        - (calculateGST ⟨50, 18, "MH", "MH", false⟩).sgstAmountCents| ≤ 1 :=
  calculateGST_intrastate_split ⟨50, 18, "MH", "MH", false⟩ rfl

/-- C3: the tax type is `CGST_SGST` iff merchant and customer state are
equal, and for interstate inputs all the GST is IGST and both split
components are zero. -/
theorem calculateGST_regime (i : GSTCalculationInput) :
    ((calculateGST i).taxType = TaxType.CGST_SGST ↔
      i.merchantState = i.customerState) ∧
    (i.merchantState ≠ i.customerState →
      (calculateGST i).igstAmountCents = (calculateGST i).totalGstCents ∧
      (calculateGST i).cgstAmountCents = 0 ∧
      (calculateGST i).sgstAmountCents = 0) := by
  rcases i with ⟨a, r, ms, cs, inc⟩
  by_cases h : ms = cs <;> simp [calculateGST, h]

/-- Witness for C3 at a concrete interstate input. -/
theorem calculateGST_regime_witness :
    (calculateGST ⟨100000, 18, "KA", "MH", false⟩).igstAmountCents
        = (calculateGST ⟨100000, 18, "KA", "MH", false⟩).totalGstCents ∧
    (calculateGST ⟨100000, 18, "KA", "MH", false⟩).cgstAmountCents = 0 ∧
    (calculateGST ⟨100000, 18, "KA", "MH", false⟩).sgstAmountCents = 0 :=
  (calculateGST_regime ⟨100000, 18, "KA", "MH", false⟩).2 (by simp)

/-- C4: branch formulas of `calculateGST` under round-half-up rounding
(`mathRound x = ⌊x + 1/2⌋`): the inclusive branch derives
`base = round(amount / (1 + rate/100))`, `gst = amount - base`,
`total = amount`; the exclusive branch sets `base = amount`,
`gst = round(amount * rate/100)`, `total = amount + gst`; and the concrete
scenario amount 100000, rate 18, same state, exclusive yields
base 100000, CGST 9000, SGST 9000, total GST 18000, total 118000. -/
theorem calculateGST_branch_formulas (i : GSTCalculationInput) :
    (i.isTaxInclusive = true →
      (calculateGST i).baseAmountCents
          = mathRound ((i.amountCents : ℚ) / (1 + i.gstRate / 100)) ∧
      (calculateGST i).totalGstCents
          = i.amountCents - (calculateGST i).baseAmountCents ∧
      (calculateGST i).totalAmountCents = i.amountCents) ∧
    (i.isTaxInclusive = false →
      (calculateGST i).baseAmountCents = i.amountCents ∧
      (calculateGST i).totalGstCents
          = mathRound ((i.amountCents : ℚ) * (i.gstRate / 100)) ∧
      (calculateGST i).totalAmountCents
          = i.amountCents + (calculateGST i).totalGstCents) ∧
    calculateGST ⟨100000, 18, "KA", "KA", false⟩ =
      ⟨100000, 9000, 9000, 0, 18000, 118000, TaxType.CGST_SGST, 9, 9, 0⟩ := by
  refine ⟨fun h => ?_, fun h => ?_, by norm_num [calculateGST, mathRound]⟩ <;>
    rcases i with ⟨a, r, ms, cs, inc⟩ <;>
    (have h' : inc = _ := h) <;> subst h' <;> simp [calculateGST]

/-- Witness for C4: both branch hypotheses discharged at concrete inputs. -/
theorem calculateGST_branch_formulas_witness :
    ((calculateGST ⟨118000, 18, "KA", "KA", true⟩).baseAmountCents
        = mathRound ((118000 : ℚ) / (1 + 18 / 100)) ∧
      (calculateGST ⟨118000, 18, "KA", "KA", true⟩).totalGstCents
        = 118000 - (calculateGST ⟨118000, 18, "KA", "KA", true⟩).baseAmountCents ∧
      (calculateGST ⟨118000, 18, "KA", "KA", true⟩).totalAmountCents = 118000) ∧
    ((calculateGST ⟨100000, 18, "KA", "KA", false⟩).baseAmountCents = 100000 ∧
      (calculateGST ⟨100000, 18, "KA", "KA", false⟩).totalGstCents
        = mathRound ((100000 : ℚ) * (18 / 100)) ∧
      (calculateGST ⟨100000, 18, "KA", "KA", false⟩).totalAmountCents
        = 100000 + (calculateGST ⟨100000, 18, "KA", "KA", false⟩).totalGstCents) :=
  ⟨(calculateGST_branch_formulas ⟨118000, 18, "KA", "KA", true⟩).1 rfl,
   (calculateGST_branch_formulas ⟨100000, 18, "KA", "KA", false⟩).2.1 rfl⟩

/-- C6: round-trip law. If the inclusive division is exact — there is an
integer base `B` with `B * (100 + rate) = T * 100`, i.e. the rate divides
evenly into `T` — then computing inclusively on the total `T` derives
exactly the base `B`, and recomputing exclusively on `B` (same rate and
jurisdictions) reproduces the total `T` exactly. -/
theorem calculateGST_roundtrip (T B : ℤ) (rn : ℕ) (ms cs : String)
    (hB : B * (100 + (rn : ℤ)) = T * 100) :
    (calculateGST ⟨T, (rn : ℚ), ms, cs, true⟩).baseAmountCents = B ∧
    (calculateGST ⟨B, (rn : ℚ), ms, cs, false⟩).totalAmountCents = T := by
  have hBq : (B : ℚ) * (100 + (rn : ℚ)) = (T : ℚ) * 100 := by exact_mod_cast hB
  have hden : (0 : ℚ) < 1 + (rn : ℚ) / 100 := by positivity
  have hdiv : (T : ℚ) / (1 + (rn : ℚ) / 100) = ((B : ℤ) : ℚ) := by
    rw [div_eq_iff (ne_of_gt hden)]
    linear_combination -hBq / 100
  have hbase : mathRound ((T : ℚ) / (1 + (rn : ℚ) / 100)) = B := by
    rw [hdiv, mathRound_intCast]
  have hgstq : (B : ℚ) * ((rn : ℚ) / 100) = ((T - B : ℤ) : ℚ) := by
    push_cast
    linear_combination hBq / 100
  have hgst : mathRound ((B : ℚ) * ((rn : ℚ) / 100)) = T - B := by
    rw [hgstq, mathRound_intCast]
  constructor
  · simpa [calculateGST] using hbase
  · have htot : (calculateGST ⟨B, (rn : ℚ), ms, cs, false⟩).totalAmountCents
        = B + mathRound ((B : ℚ) * ((rn : ℚ) / 100)) := by
      simp [calculateGST]
    rw [htot, hgst]
    ring

/-- Witness for C6 at the spec's concrete scenario: T = 118000, rate 18,
base 100000. -/
theorem calculateGST_roundtrip_witness :
    (calculateGST ⟨118000, ((18 : ℕ) : ℚ), "KA", "KA", true⟩).baseAmountCents
        = 100000 ∧
    (calculateGST ⟨100000, ((18 : ℕ) : ℚ), "KA", "KA", false⟩).totalAmountCents
        = 118000 :=
  calculateGST_roundtrip 118000 100000 18 "KA" "KA" (by decide)

/-- C9: the three output rates always sum to the input rate; intrastate
they are `rate/2`, `rate/2`, `0`, interstate they are `0`, `0`, `rate`. -/
theorem calculateGST_rate_components (i : GSTCalculationInput) :
    (calculateGST i).cgstRate + (calculateGST i).sgstRate
        + (calculateGST i).igstRate = i.gstRate ∧
    (i.merchantState = i.customerState →
      (calculateGST i).cgstRate = i.gstRate / 2 ∧
      (calculateGST i).sgstRate = i.gstRate / 2 ∧
      (calculateGST i).igstRate = 0) ∧
    (i.merchantState ≠ i.customerState →
      (calculateGST i).cgstRate = 0 ∧
      (calculateGST i).sgstRate = 0 ∧
      (calculateGST i).igstRate = i.gstRate) := by
  rcases i with ⟨a, r, ms, cs, inc⟩
  by_cases h : ms = cs <;> simp [calculateGST, h]

/-- Witness for C9 at concrete intrastate and interstate inputs. -/
theorem calculateGST_rate_components_witness :
    ((calculateGST ⟨100, 18, "DL", "DL", false⟩).cgstRate = 18 / 2 ∧
      (calculateGST ⟨100, 18, "DL", "DL", false⟩).sgstRate = 18 / 2 ∧
      (calculateGST ⟨100, 18, "DL", "DL", false⟩).igstRate = 0) ∧
    ((calculateGST ⟨100, 18, "DL", "TN", false⟩).cgstRate = 0 ∧
      (calculateGST ⟨100, 18, "DL", "TN", false⟩).sgstRate = 0 ∧
      (calculateGST ⟨100, 18, "DL", "TN", false⟩).igstRate = 18) :=
  ⟨(calculateGST_rate_components ⟨100, 18, "DL", "DL", false⟩).2.1 rfl,
   (calculateGST_rate_components ⟨100, 18, "DL", "TN", false⟩).2.2 (by decide)⟩

/-- Counterexample for C5 as stated: `"22AAAAA0000A0Z5"` matches the
spec's claimed pattern (its 13th character `'0'` is alphanumeric), yet
`validateGSTIN` rejects it, because the implemented regex uses the class
`[1-9A-Z]` — not any alphanumeric — in the 13th position. -/
theorem validateGSTIN_claim_counterexample :
    specClaimedPattern ("22AAAAA0000A0Z5").data = true ∧
    validateGSTIN "22AAAAA0000A0Z5" = false := by
  constructor <;> decide

/-- C5 (amended): `validateGSTIN` returns true exactly for 15-character
strings of the form [2 digits][5 upper-case letters][4 digits]
[1 upper-case letter][1 digit 1–9 or upper-case letter]Z[1 alphanumeric].
In particular every string whose length is not 15 is rejected, as is any
lower-case letter in a letter position, and no normalization happens
before validation. -/
theorem validateGSTIN_iff (s : String) :
    validateGSTIN s = true ↔
      ∃ s1 s2 p1 p2 p3 p4 p5 n1 n2 n3 n4 p6 e cd : Char,
        s.data = [s1, s2, p1, p2, p3, p4, p5, n1, n2, n3, n4, p6, e, 'Z', cd] ∧
        isDigitChar s1 = true ∧ isDigitChar s2 = true ∧
        isUpperChar p1 = true ∧ isUpperChar p2 = true ∧ isUpperChar p3 = true ∧
        isUpperChar p4 = true ∧ isUpperChar p5 = true ∧
        isDigitChar n1 = true ∧ isDigitChar n2 = true ∧
        isDigitChar n3 = true ∧ isDigitChar n4 = true ∧
        isUpperChar p6 = true ∧ isEntityChar e = true ∧
        isAlnumChar cd = true := by
  obtain ⟨l⟩ := s
  constructor
  · intro h
    have hl : l.length = 15 := by
      by_contra hne
      simp [validateGSTIN, hne] at h
    have hg : gstinChars l = true := by
      simpa [validateGSTIN, hl] using h
    clear h
    rcases l with _ | ⟨s1, _ | ⟨s2, _ | ⟨p1, _ | ⟨p2, _ | ⟨p3, _ | ⟨p4, _ |
      ⟨p5, _ | ⟨n1, _ | ⟨n2, _ | ⟨n3, _ | ⟨n4, _ | ⟨p6, _ | ⟨e, _ |
      ⟨z, _ | ⟨cd, _ | ⟨x, t⟩⟩⟩⟩⟩⟩⟩⟩⟩⟩⟩⟩⟩⟩⟩⟩ <;>
      try (exact absurd hl (by simp only [List.length_cons, List.length_nil]; omega))
    refine ⟨s1, s2, p1, p2, p3, p4, p5, n1, n2, n3, n4, p6, e, cd,
      ?_, ?_, ?_, ?_, ?_, ?_, ?_, ?_, ?_, ?_, ?_, ?_, ?_, ?_, ?_⟩ <;>
      simp_all [gstinChars]
  · rintro ⟨s1, s2, p1, p2, p3, p4, p5, n1, n2, n3, n4, p6, e, cd,
      hdata, h1, h2, h3, h4, h5, h6, h7, h8, h9, h10, h11, h12, h13, h14⟩
    have hdata' : l = [s1, s2, p1, p2, p3, p4, p5, n1, n2, n3, n4, p6, e,
        'Z', cd] := hdata
    subst hdata'
    have hlen : String.length
        ⟨[s1, s2, p1, p2, p3, p4, p5, n1, n2, n3, n4, p6, e, 'Z', cd]⟩
        = 15 := rfl
    simp [validateGSTIN, hlen, gstinChars, h1, h2, h3, h4, h5, h6, h7, h8,
      h9, h10, h11, h12, h13, h14]

/-- C7: `getStateCodeFromGSTIN` returns the leading two characters iff
`validateGSTIN` holds, and the absence marker `none` iff it does not; it
is total on all strings by construction. -/
theorem getStateCodeFromGSTIN_spec (s : String) :
    (getStateCodeFromGSTIN s = some (s.take 2) ↔ validateGSTIN s = true) ∧
    (getStateCodeFromGSTIN s = none ↔ validateGSTIN s = false) := by
  by_cases h : validateGSTIN s = true <;>
    simp [getStateCodeFromGSTIN, h]

/-- Witness for C7 at a valid and an invalid input. -/
theorem getStateCodeFromGSTIN_spec_witness :
    (getStateCodeFromGSTIN "22AAAAA0000A1Z5"
        = some (("22AAAAA0000A1Z5" : String).take 2) ↔
      validateGSTIN "22AAAAA0000A1Z5" = true) ∧
    (getStateCodeFromGSTIN "nope" = none ↔ validateGSTIN "nope" = false) :=
  ⟨(getStateCodeFromGSTIN_spec "22AAAAA0000A1Z5").1,
   (getStateCodeFromGSTIN_spec "nope").2⟩

/-- C8: `formatGSTIN` returns its input unchanged whenever the length is
not 15, and for every 15-character string — valid GSTIN or not, no
validity check is performed — it inserts the separators at the fixed
positions 2, 7, 11, 12, 13 and 14. -/
theorem formatGSTIN_spec (s : String) :
    (s.length ≠ 15 → formatGSTIN s = s) ∧
    (∀ c1 c2 c3 c4 c5 c6 c7 c8 c9 c10 c11 c12 c13 c14 c15 : Char,
      s.data = [c1, c2, c3, c4, c5, c6, c7, c8, c9, c10, c11, c12, c13,
        c14, c15] →
      formatGSTIN s = ⟨[c1, c2, ' ', c3, c4, c5, c6, c7, ' ', c8, c9, c10,
        c11, ' ', c12, ' ', c13, ' ', c14, ' ', c15]⟩) := by
  obtain ⟨l⟩ := s
  constructor
  · intro h
    unfold formatGSTIN
    rw [if_pos h]
  · intro c1 c2 c3 c4 c5 c6 c7 c8 c9 c10 c11 c12 c13 c14 c15 hdata
    have hdata' : l = [c1, c2, c3, c4, c5, c6, c7, c8, c9, c10, c11, c12,
        c13, c14, c15] := hdata
    subst hdata'
    rfl

/-- C8 witness: a wrong-length string is unchanged, and a 15-character
string that is NOT a valid GSTIN (all lower-case) is still formatted. -/
theorem formatGSTIN_spec_witness :
    formatGSTIN "abc" = "abc" ∧
    formatGSTIN "aaaaaaaaaaaaaaa" = ⟨['a', 'a', ' ', 'a', 'a', 'a', 'a',
      'a', ' ', 'a', 'a', 'a', 'a', ' ', 'a', ' ', 'a', ' ', 'a', ' ',
      'a']⟩ :=
  ⟨(formatGSTIN_spec "abc").1 (by decide),
   (formatGSTIN_spec "aaaaaaaaaaaaaaa").2
     'a' 'a' 'a' 'a' 'a' 'a' 'a' 'a' 'a' 'a' 'a' 'a' 'a' 'a' 'a' rfl⟩

/-- Formatting a 15-character string yields 21 characters, so a second
application of `formatGSTIN` falls into the length-mismatch branch. -/
lemma formatGSTINData_length (l : List Char) (h : l.length = 15) :
    (formatGSTINData l).length = 21 := by
  simp [formatGSTINData, substringJS, List.length_append, h]

/-- C10: `formatGSTIN` is idempotent on every string: a 15-character
input becomes a 21-character string, which the second application leaves
unchanged, and any other input is already left unchanged. -/
theorem formatGSTIN_idempotent (s : String) :
    formatGSTIN (formatGSTIN s) = formatGSTIN s := by
  obtain ⟨l⟩ := s
  by_cases h : List.length l = 15
  · have h1 : formatGSTIN ⟨l⟩ = ⟨formatGSTINData l⟩ := by
      simp [formatGSTIN, String.length, h]
    rw [h1]
    have h2 : String.length ⟨formatGSTINData l⟩ = 21 := formatGSTINData_length l h
    simp [formatGSTIN, h2]
  · have h1 : formatGSTIN ⟨l⟩ = ⟨l⟩ := by
      simp [formatGSTIN, String.length, h]
    rw [h1, h1]

end GstUtils
